import Mathlib

/-!
Shallow embedding of the p5-components GUI widget library
(`P5Component` / `EventEmitter` in `src/unnamed/part_000`,
`P5Button` / `P5TextBox` in `src/p5-components/src/components/Button.js`,
`P5Label` in `src/p5-components/src/components/Label.js`)
together with proofs about the component state machine, the text-editing
algorithm, serialization round trips, and the event emitter.

Modelling conventions:
* JavaScript numbers are modelled as `ℚ`; text as `List Char`
  (JS `s.substring(0, k)` on these code paths is `List.take k`,
  `s.substring(k)` is `List.drop k`, both clamping exactly as JS does).
* `_cursorPosition` is a `Nat`: every write in the source is a natural
  number (initialised to `text.length`, decremented only under a `> 0`
  guard, clamped with `Math.max(0, ...)`).
* Emitted events are collected in a list, in emission order.
* The p5 rendering surface (canvas, redraw) is side-effect-free for the
  properties studied here and is omitted; glyph measurement
  (`p.textWidth`) is an explicit function parameter.
-/

/-- Visual state of a component: the `_state` field of `P5Component`
(`normal`, `hover`, `active`, `disabled`, `focused`). -/
inductive CState where
  | normal
  | hover
  | active
  | disabled
  | focused
deriving DecidableEq

/-- Semantic events emitted by components through the `EventEmitter`. -/
inductive Ev where
  | textChanged (v : List Char)
  | enabledChanged (v : Bool)
  | visibleChanged (v : Bool)
  | mouseDown (x y : ℚ)
  | mouseUp (x y : ℚ)
  | click (x y : ℚ)
  | mouseEnter
  | mouseLeave
  | focusGained
  | blurred
  | changeEv (v : List Char)
  | keyPressEv (key : String) (keyCode : Nat)
  | submitEv (v : List Char)
deriving DecidableEq

/-- `true` exactly on `click` events. -/
def Ev.isClick : Ev → Bool
  | .click _ _ => true
  | _ => false

/-- The fields of `P5Component` (src/unnamed/part_000 lines 12-39).
`tabIndexShadow` records the own data property created when `fromJSON`
assigns `this.tabIndex` (the class declares no `tabIndex` accessor, so the
assignment shadows nothing and leaves `_tabIndex` untouched). -/
structure P5Component where
  name : String
  text : List Char
  left : ℚ
  top : ℚ
  width : ℚ
  height : ℚ
  enabled : Bool
  visible : Bool
  backColor : String
  foreColor : String
  fontSize : ℚ
  fontFamily : String
  borderColor : String
  borderWidth : ℚ
  tabIndex : ℚ
  state : CState
  mouseInside : Bool
  mousePressed : Bool
  tabIndexShadow : Option ℚ := none
deriving DecidableEq

/-- Constructor options record for `P5Component`; `none` models an absent
(or `undefined`) key. -/
structure COptions where
  name : Option String := none
  text : Option (List Char) := none
  left : Option ℚ := none
  top : Option ℚ := none
  width : Option ℚ := none
  height : Option ℚ := none
  enabled : Option Bool := none
  visible : Option Bool := none
  backColor : Option String := none
  foreColor : Option String := none
  fontSize : Option ℚ := none
  fontFamily : Option String := none
  borderColor : Option String := none
  borderWidth : Option ℚ := none
  tabIndex : Option ℚ := none

/-- JavaScript `o || d` for a numeric option: `0` is falsy, so an explicit
`0` falls back to the default. -/
def jsOrNum (o : Option ℚ) (d : ℚ) : ℚ :=
  match o with
  | none => d
  | some v => if v = 0 then d else v

/-- JavaScript `o || d` for a string option: the empty string is falsy. -/
def jsOrStr (o : Option String) (d : String) : String :=
  match o with
  | none => d
  | some v => if v = "" then d else v

/-- JavaScript `o || d` for a string option holding text: empty is falsy. -/
def jsOrList (o : Option (List Char)) (d : List Char) : List Char :=
  match o with
  | none => d
  | some v => if v = [] then d else v

/-- JavaScript `o || d` for a boolean option. -/
def jsOrBool (o : Option Bool) (d : Bool) : Bool :=
  match o with
  | none => d
  | some v => if v then true else d

/-- The `P5Component` constructor (src/unnamed/part_000 lines 8-43).
`autoName` stands in for the time-based default name
`component_<Date.now()>`.  Note that `_state` is set to `normal`
unconditionally, regardless of `options.enabled`. -/
def P5Component.mk0 (o : COptions) (autoName : String) : P5Component where
  name := jsOrStr o.name autoName
  text := jsOrList o.text []
  left := jsOrNum o.left 0
  top := jsOrNum o.top 0
  width := jsOrNum o.width 100
  height := jsOrNum o.height 30
  enabled := o.enabled.getD true
  visible := o.visible.getD true
  backColor := jsOrStr o.backColor "#FFFFFF"
  foreColor := jsOrStr o.foreColor "#000000"
  fontSize := jsOrNum o.fontSize 14
  fontFamily := jsOrStr o.fontFamily "Arial"
  borderColor := jsOrStr o.borderColor "#999999"
  borderWidth := jsOrNum o.borderWidth 1
  tabIndex := jsOrNum o.tabIndex 0
  state := CState.normal
  mouseInside := false
  mousePressed := false

/-- `name` setter: plain store. -/
def P5Component.setName (c : P5Component) (v : String) : P5Component :=
  { c with name := v }

/-- `text` setter (base class, lines 51-55): store, emit `textChanged`,
redraw.  It does not touch any cursor field of a subclass. -/
def P5Component.setText (c : P5Component) (v : List Char) :
    P5Component × List Ev :=
  ({ c with text := v }, [Ev.textChanged v])

/-- `left` setter: store and reposition the canvas. -/
def P5Component.setLeft (c : P5Component) (v : ℚ) : P5Component :=
  { c with left := v }

/-- `top` setter: store and reposition the canvas. -/
def P5Component.setTop (c : P5Component) (v : ℚ) : P5Component :=
  { c with top := v }

/-- `width` setter: store and resize the canvas. -/
def P5Component.setWidth (c : P5Component) (v : ℚ) : P5Component :=
  { c with width := v }

/-- `height` setter: store and resize the canvas. -/
def P5Component.setHeight (c : P5Component) (v : ℚ) : P5Component :=
  { c with height := v }

/-- `enabled` setter (lines 82-87): store, recompute `_state`, emit
`enabledChanged`, redraw. -/
def P5Component.setEnabled (c : P5Component) (v : Bool) :
    P5Component × List Ev :=
  ({ c with enabled := v,
            state := if v then CState.normal else CState.disabled },
   [Ev.enabledChanged v])

/-- `visible` setter: store, toggle canvas display, emit `visibleChanged`. -/
def P5Component.setVisible (c : P5Component) (v : Bool) :
    P5Component × List Ev :=
  ({ c with visible := v }, [Ev.visibleChanged v])

/-- `backColor` setter: store and redraw. -/
def P5Component.setBackColor (c : P5Component) (v : String) : P5Component :=
  { c with backColor := v }

/-- `foreColor` setter: store and redraw. -/
def P5Component.setForeColor (c : P5Component) (v : String) : P5Component :=
  { c with foreColor := v }

/-- `fontSize` setter: store and redraw. -/
def P5Component.setFontSize (c : P5Component) (v : ℚ) : P5Component :=
  { c with fontSize := v }

/-- `fontFamily` setter: store and redraw. -/
def P5Component.setFontFamily (c : P5Component) (v : String) : P5Component :=
  { c with fontFamily := v }

/-- `borderColor` setter: store and redraw. -/
def P5Component.setBorderColor (c : P5Component) (v : String) : P5Component :=
  { c with borderColor := v }

/-- `borderWidth` setter: store and redraw. -/
def P5Component.setBorderWidth (c : P5Component) (v : ℚ) : P5Component :=
  { c with borderWidth := v }

/-- `_handleMousePressed` (lines 176-183): no-op when disabled; otherwise
set `mousePressed`, go `active`, emit `mouseDown`. -/
def P5Component.handleMousePressed (c : P5Component) (mx my : ℚ) :
    P5Component × List Ev :=
  if !c.enabled then (c, [])
  else
    ({ c with mousePressed := true, state := CState.active },
     [Ev.mouseDown mx my])

/-- `_handleMouseReleased` (lines 185-199): no-op when disabled; otherwise
clear `mousePressed`; if the pointer is still inside go `hover` and emit
`click` then `mouseUp`, else go `normal` and emit only `mouseUp`. -/
def P5Component.handleMouseReleased (c : P5Component) (mx my : ℚ) :
    P5Component × List Ev :=
  if !c.enabled then (c, [])
  else
    let c := { c with mousePressed := false }
    if c.mouseInside then
      ({ c with state := CState.hover }, [Ev.click mx my, Ev.mouseUp mx my])
    else
      ({ c with state := CState.normal }, [Ev.mouseUp mx my])

/-- `_handleMouseOver` (lines 201-210): no-op when disabled; otherwise set
`mouseInside`, go `hover` unless mid-press, emit `mouseEnter`. -/
def P5Component.handleMouseOver (c : P5Component) : P5Component × List Ev :=
  if !c.enabled then (c, [])
  else
    let c := { c with mouseInside := true }
    let c := if !c.mousePressed then { c with state := CState.hover } else c
    (c, [Ev.mouseEnter])

/-- `_handleMouseOut` (lines 212-221): no-op when disabled; otherwise clear
`mouseInside`, go `normal` unless mid-press, emit `mouseLeave`. -/
def P5Component.handleMouseOut (c : P5Component) : P5Component × List Ev :=
  if !c.enabled then (c, [])
  else
    let c := { c with mouseInside := false }
    let c := if !c.mousePressed then { c with state := CState.normal } else c
    (c, [Ev.mouseLeave])

/-- `focus()` (lines 287-293): when enabled, go `focused` and emit `focus`. -/
def P5Component.focusComp (c : P5Component) : P5Component × List Ev :=
  if c.enabled then ({ c with state := CState.focused }, [Ev.focusGained])
  else (c, [])

/-- `blur()` (lines 298-304): when `focused`, go `normal` and emit `blur`. -/
def P5Component.blurComp (c : P5Component) : P5Component × List Ev :=
  if c.state = CState.focused then
    ({ c with state := CState.normal }, [Ev.blurred])
  else (c, [])

/-- Constructor options for `P5TextBox`, extending the base options
(Button.js lines 152-186). -/
structure TBOptions extends COptions where
  placeholder : Option String := none
  placeholderColor : Option String := none
  maxLength : Option ℚ := none
  readOnly : Option Bool := none
  passwordChar : Option String := none
  multiline : Option Bool := none
  textAlign : Option String := none
  focusBorderColor : Option String := none
  padding : Option ℚ := none

/-- The fields of `P5TextBox` (Button.js lines 152-186) on top of the
base component. -/
structure P5TextBox where
  base : P5Component
  placeholder : String
  placeholderColor : String
  maxLength : ℚ
  readOnly : Bool
  passwordChar : Option String
  multiline : Bool
  textAlign : String
  cursorPosition : Nat
  selectionStart : ℤ
  selectionEnd : ℤ
  focusBorderColor : String
  padding : ℚ
deriving DecidableEq

/-- The defaults object spread `{width:200, height:30, text:?, ... ,
...options}` that `P5TextBox` passes to `super` (Button.js lines 153-163):
keys present in `options` win, absent keys take the listed default. -/
def TBOptions.merged (o : TBOptions) : COptions :=
  { o.toCOptions with
    width := some (o.width.getD 200)
    height := some (o.height.getD 30)
    text := some (o.text.getD [])
    backColor := some (o.backColor.getD "#FFFFFF")
    foreColor := some (o.foreColor.getD "#000000")
    borderColor := some (o.borderColor.getD "#999999")
    borderWidth := some (o.borderWidth.getD 1)
    fontSize := some (o.fontSize.getD 14) }

/-- JavaScript `options.passwordChar || null`: absent or empty gives null. -/
def jsOrNull (o : Option String) : Option String :=
  match o with
  | none => none
  | some v => if v = "" then none else some v

/-- The `P5TextBox` constructor (Button.js lines 152-186). -/
def P5TextBox.mk0 (o : TBOptions) (autoName : String) : P5TextBox :=
  let base := P5Component.mk0 o.merged autoName
  { base := base
    placeholder := jsOrStr o.placeholder ""
    placeholderColor := jsOrStr o.placeholderColor "#AAAAAA"
    maxLength := jsOrNum o.maxLength 255
    readOnly := jsOrBool o.readOnly false
    passwordChar := jsOrNull o.passwordChar
    multiline := jsOrBool o.multiline false
    textAlign := jsOrStr o.textAlign "left"
    cursorPosition := base.text.length
    selectionStart := -1
    selectionEnd := -1
    focusBorderColor := jsOrStr o.focusBorderColor "#4A90E2"
    padding := o.padding.getD 5 }

/-- Special (non-printable) keys dispatched to `handleKeyPressed`. -/
inductive SpecialKey where
  | backspace
  | deleteKey
  | leftArrow
  | rightArrow
  | homeKey
  | endKey
  | enter
deriving DecidableEq

/-- `P5TextBox.handleKeyPressed` (Button.js lines 361-424).  `BACKSPACE`
removes the character before the cursor when text is nonempty and the
cursor is positive; `DELETE` removes the character at the cursor when one
exists; arrows/home/end move the cursor without mutating the text; `ENTER`
on a single-line box emits `submit` and blurs.  Everything is a no-op when
`readOnly`. -/
def P5TextBox.handleKeyPressed (tb : P5TextBox) (k : SpecialKey) :
    P5TextBox × List Ev :=
  if tb.readOnly then (tb, [])
  else
    match k with
    | .backspace =>
      if 0 < tb.base.text.length ∧ 0 < tb.cursorPosition then
        let newText := tb.base.text.take (tb.cursorPosition - 1) ++
                       tb.base.text.drop tb.cursorPosition
        ({ tb with base := { tb.base with text := newText },
                   cursorPosition := tb.cursorPosition - 1 },
         [Ev.changeEv newText, Ev.keyPressEv "Backspace" 8])
      else (tb, [])
    | .deleteKey =>
      if tb.cursorPosition < tb.base.text.length then
        let newText := tb.base.text.take tb.cursorPosition ++
                       tb.base.text.drop (tb.cursorPosition + 1)
        ({ tb with base := { tb.base with text := newText } },
         [Ev.changeEv newText, Ev.keyPressEv "Delete" 46])
      else (tb, [])
    | .leftArrow =>
      if 0 < tb.cursorPosition then
        ({ tb with cursorPosition := tb.cursorPosition - 1 }, [])
      else (tb, [])
    | .rightArrow =>
      if tb.cursorPosition < tb.base.text.length then
        ({ tb with cursorPosition := tb.cursorPosition + 1 }, [])
      else (tb, [])
    | .homeKey => ({ tb with cursorPosition := 0 }, [])
    | .endKey => ({ tb with cursorPosition := tb.base.text.length }, [])
    | .enter =>
      if tb.multiline then (tb, [])
      else
        let b := tb.base.blurComp
        ({ tb with base := b.1 }, Ev.submitEv tb.base.text :: b.2)

/-- `P5TextBox.handleKeyTyped` (Button.js lines 426-443): a printable
character (single char with code ≥ 32) is spliced in at the cursor when
not `readOnly` and below `maxLength`; the cursor advances and `change`
is emitted before `keyPress`. -/
def P5TextBox.handleKeyTyped (tb : P5TextBox) (key : Char) :
    P5TextBox × List Ev :=
  if tb.readOnly then (tb, [])
  else if 32 ≤ key.toNat then
    if (tb.base.text.length : ℚ) < tb.maxLength then
      let newText := tb.base.text.take tb.cursorPosition ++ key ::
                     tb.base.text.drop tb.cursorPosition
      ({ tb with base := { tb.base with text := newText },
                 cursorPosition := tb.cursorPosition + 1 },
       [Ev.changeEv newText,
        Ev.keyPressEv (String.singleton key) key.toNat])
    else (tb, [])
  else (tb, [])

/-- `P5TextBox.clear` (Button.js lines 450-455): empty the text, reset the
cursor to 0, emit `change`. -/
def P5TextBox.clearAll (tb : P5TextBox) : P5TextBox × List Ev :=
  ({ tb with base := { tb.base with text := [] }, cursorPosition := 0 },
   [Ev.changeEv []])

/-- Setting `text` on a `P5TextBox` runs the inherited base-class setter
(the subclass declares no override), which stores the value and emits
`textChanged` without touching `_cursorPosition`. -/
def P5TextBox.setTextProp (tb : P5TextBox) (v : List Char) :
    P5TextBox × List Ev :=
  let r := tb.base.setText v
  ({ tb with base := r.1 }, r.2)

/-- The cursor-placement loop of `P5TextBox._handleMousePressed`
(Button.js lines 496-507), written as a recursion over the remaining
characters and returning the `position` selected relative to the start of
the walk.  `w` is the glyph measurement (`p.textWidth` on one character)
and `we` is `p.textWidth` applied to the empty string, which the loop
reads at `i = length` via `charAt(length) = ''`. -/
def clickLoopRel (w : Char → ℚ) (we : ℚ) :
    List Char → ℚ → ℚ → Nat
  | [], offset, acc => if acc + we / 2 > offset then 0 else 1
  | c :: rest, offset, acc =>
    if acc + w c / 2 > offset then 0
    else clickLoopRel w we rest offset (acc + w c) + 1

/-- Modelled from the spec's words (click-to-cursor mapping, §4.2): the
first index `i`, walking characters left to right, whose accumulated width
plus half the width of the next glyph exceeds the click offset; if no such
index exists the result is the text length. -/
def specCursorIndex (w : Char → ℚ) : List Char → ℚ → ℚ → Nat
  | [], _, _ => 0
  | c :: rest, offset, acc =>
    if acc + w c / 2 > offset then 0
    else specCursorIndex w rest offset (acc + w c) + 1

/-- `P5TextBox._handleMousePressed` (Button.js lines 481-513): run the base
handler, then when enabled and not read-only take focus and, for
left-aligned text, place the cursor from the click position, clamped with
`Math.max(0, Math.min(position, length))`. -/
def P5TextBox.handleMousePressedTB (w : Char → ℚ) (we : ℚ)
    (tb : P5TextBox) (mx my : ℚ) : P5TextBox × List Ev :=
  let r := tb.base.handleMousePressed mx my
  let tb1 := { tb with base := r.1 }
  if tb1.base.enabled ∧ ¬tb1.readOnly then
    let f := tb1.base.focusComp
    let tb2 := { tb1 with base := f.1 }
    if tb2.textAlign = "left" then
      let clickOffset := mx - tb2.padding
      let pos := clickLoopRel w we tb2.base.text clickOffset 0
      ({ tb2 with cursorPosition := min pos tb2.base.text.length },
       r.2 ++ f.2)
    else (tb2, r.2 ++ f.2)
  else (tb1, r.2)

/-- The flat record returned by `P5Component.toJSON`
(src/unnamed/part_000 lines 336-355), with the `type` discriminator. -/
structure ComponentJSON where
  type : String
  name : String
  text : List Char
  left : ℚ
  top : ℚ
  width : ℚ
  height : ℚ
  enabled : Bool
  visible : Bool
  backColor : String
  foreColor : String
  fontSize : ℚ
  fontFamily : String
  borderColor : String
  borderWidth : ℚ
  tabIndex : ℚ
deriving DecidableEq

/-- The base portion of `toJSON` for a component whose dynamic
`constructor.name` is `ty`. -/
def P5Component.record (c : P5Component) (ty : String) : ComponentJSON where
  type := ty
  name := c.name
  text := c.text
  left := c.left
  top := c.top
  width := c.width
  height := c.height
  enabled := c.enabled
  visible := c.visible
  backColor := c.backColor
  foreColor := c.foreColor
  fontSize := c.fontSize
  fontFamily := c.fontFamily
  borderColor := c.borderColor
  borderWidth := c.borderWidth
  tabIndex := c.tabIndex

/-- `P5Component.toJSON` on a direct base-class instance. -/
def P5Component.toJSON (c : P5Component) : ComponentJSON :=
  c.record "P5Component"

/-- `P5Component.fromJSON` (lines 361-367) restricted to the base keys, in
the key order produced by `toJSON`: every key except `type` whose `_`-field
exists is assigned through `this[key] = json[key]`.  All keys here except
`tabIndex` hit a declared setter; `tabIndex` has no accessor, so the
assignment creates an own data property (the shadow) and `_tabIndex`
keeps its old value. -/
def P5Component.fromJSON (c : P5Component) (j : ComponentJSON) :
    P5Component :=
  let c := c.setName j.name
  let c := (c.setText j.text).1
  let c := c.setLeft j.left
  let c := c.setTop j.top
  let c := c.setWidth j.width
  let c := c.setHeight j.height
  let c := (c.setEnabled j.enabled).1
  let c := (c.setVisible j.visible).1
  let c := c.setBackColor j.backColor
  let c := c.setForeColor j.foreColor
  let c := c.setFontSize j.fontSize
  let c := c.setFontFamily j.fontFamily
  let c := c.setBorderColor j.borderColor
  let c := c.setBorderWidth j.borderWidth
  { c with tabIndexShadow := some j.tabIndex }

/-- The fields of `P5Button` (Button.js lines 7-27) on top of the base
component.  `disabledTextColorShadow` records the own data property
created by `fromJSON`: the class declares no `disabledTextColor`
accessor, so that assignment leaves `_disabledTextColor` untouched. -/
structure P5Button where
  base : P5Component
  hoverColor : String
  activeColor : String
  disabledColor : String
  disabledTextColor : String
  cornerRadius : ℚ
  disabledTextColorShadow : Option String := none
deriving DecidableEq

/-- The record returned by `P5Button.toJSON` (Button.js lines 134-143). -/
structure ButtonJSON extends ComponentJSON where
  hoverColor : String
  activeColor : String
  disabledColor : String
  disabledTextColor : String
  cornerRadius : ℚ
deriving DecidableEq

/-- `P5Button.toJSON`: the base record plus the button-specific keys. -/
def P5Button.toJSON (b : P5Button) : ButtonJSON where
  toComponentJSON := b.base.record "P5Button"
  hoverColor := b.hoverColor
  activeColor := b.activeColor
  disabledColor := b.disabledColor
  disabledTextColor := b.disabledTextColor
  cornerRadius := b.cornerRadius

/-- The inherited `fromJSON` applied to a button record: base keys first
(in `toJSON` order), then the button keys.  `hoverColor`, `activeColor`,
`disabledColor` and `cornerRadius` hit declared setters that store the
value; `disabledTextColor` has no accessor and only creates the shadow. -/
def P5Button.fromJSON (b : P5Button) (j : ButtonJSON) : P5Button :=
  let b := { b with base := b.base.fromJSON j.toComponentJSON }
  let b := { b with hoverColor := j.hoverColor }
  let b := { b with activeColor := j.activeColor }
  let b := { b with disabledColor := j.disabledColor }
  let b := { b with disabledTextColorShadow := some j.disabledTextColor }
  { b with cornerRadius := j.cornerRadius }

/-- The record returned by `P5TextBox.toJSON` (Button.js lines 517-527). -/
structure TextBoxJSON extends ComponentJSON where
  placeholder : String
  maxLength : ℚ
  readOnly : Bool
  passwordChar : Option String
  multiline : Bool
  textAlign : String
deriving DecidableEq

/-- `P5TextBox.toJSON`: the base record plus the text-box keys. -/
def P5TextBox.toJSON (tb : P5TextBox) : TextBoxJSON where
  toComponentJSON := tb.base.record "P5TextBox"
  placeholder := tb.placeholder
  maxLength := tb.maxLength
  readOnly := tb.readOnly
  passwordChar := tb.passwordChar
  multiline := tb.multiline
  textAlign := tb.textAlign

/-- The inherited `fromJSON` applied to a text-box record: base keys first
(`text` runs the inherited base setter — the subclass has no override —
so `_cursorPosition` is not recomputed), then the text-box keys, all of
which hit declared setters that store the value. -/
def P5TextBox.fromJSON (tb : P5TextBox) (j : TextBoxJSON) : P5TextBox :=
  let tb := { tb with base := tb.base.fromJSON j.toComponentJSON }
  let tb := { tb with placeholder := j.placeholder }
  let tb := { tb with maxLength := j.maxLength }
  let tb := { tb with readOnly := j.readOnly }
  let tb := { tb with passwordChar := j.passwordChar }
  let tb := { tb with multiline := j.multiline }
  { tb with textAlign := j.textAlign }

/-- Constructor options for `P5Label` (Label.js lines 8-31). -/
structure LBOptions extends COptions where
  textAlign : Option String := none
  verticalAlign : Option String := none
  autoSize : Option Bool := none
  wordWrap : Option Bool := none
  padding : Option ℚ := none
  fontStyle : Option String := none
  underline : Option Bool := none
  strikethrough : Option Bool := none

/-- The fields of `P5Label` (Label.js lines 8-31) on top of the base
component.  `paddingShadow` records the own data property created by
`fromJSON` (`padding` has no accessor on the label class). -/
structure P5Label where
  base : P5Component
  textAlign : String
  verticalAlign : String
  autoSize : Bool
  wordWrap : Bool
  padding : ℚ
  fontStyle : String
  underline : Bool
  strikethrough : Bool
  paddingShadow : Option ℚ := none
deriving DecidableEq

/-- The defaults spread `{width:100, height:20, text:?, backColor:?, ...,
enabled:false, ...options}` that `P5Label` passes to `super`
(Label.js lines 9-20). -/
def LBOptions.merged (o : LBOptions) : COptions :=
  { o.toCOptions with
    width := some (o.width.getD 100)
    height := some (o.height.getD 20)
    text := some (o.text.getD ['L', 'a', 'b', 'e', 'l'])
    backColor := some (o.backColor.getD "transparent")
    foreColor := some (o.foreColor.getD "#000000")
    borderColor := some (o.borderColor.getD "transparent")
    borderWidth := some (o.borderWidth.getD 0)
    fontSize := some (o.fontSize.getD 14)
    enabled := some (o.enabled.getD false) }

/-- The `P5Label` constructor (Label.js lines 8-31). -/
def P5Label.mk0 (o : LBOptions) (autoName : String) : P5Label where
  base := P5Component.mk0 o.merged autoName
  textAlign := jsOrStr o.textAlign "left"
  verticalAlign := jsOrStr o.verticalAlign "top"
  autoSize := o.autoSize.getD false
  wordWrap := o.wordWrap.getD false
  padding := o.padding.getD 0
  fontStyle := jsOrStr o.fontStyle "normal"
  underline := jsOrBool o.underline false
  strikethrough := jsOrBool o.strikethrough false

/-- `P5Label._adjustSize` (Label.js lines 286-300) with the surface
present (the constructor creates `_p5Instance` synchronously): width and
height are recomputed from the measured text width and the font size.
`measure` is the external `p.textWidth` on whole strings. -/
def P5Label.adjustSize (measure : List Char → ℚ) (lb : P5Label) : P5Label :=
  { lb with base := { lb.base with
      width := measure lb.base.text + lb.padding * 2,
      height := lb.base.fontSize + lb.padding * 2 } }

/-- The overridden `text` setter of `P5Label` (Label.js lines 80-87):
store, emit `textChanged`, auto-size when `autoSize` is on, redraw. -/
def P5Label.setTextL (measure : List Char → ℚ) (lb : P5Label)
    (v : List Char) : P5Label × List Ev :=
  let lb := { lb with base := { lb.base with text := v } }
  let lb := if lb.autoSize then lb.adjustSize measure else lb
  (lb, [Ev.textChanged v])

/-- The `autoSize` setter of `P5Label` (Label.js lines 48-53): store the
flag and, when it is turned on (truthy), immediately re-derive width and
height from the measured text. -/
def P5Label.setAutoSize (measure : List Char → ℚ) (lb : P5Label)
    (v : Bool) : P5Label :=
  let lb := { lb with autoSize := v }
  if v then lb.adjustSize measure else lb

/-- `width` setter reached through the label (inherited from the base
class): plain store plus canvas resize. -/
def P5Label.setWidthL (lb : P5Label) (v : ℚ) : P5Label :=
  { lb with base := lb.base.setWidth v }

/-- The record returned by `P5Label.toJSON` (Label.js lines 320-332). -/
structure LabelJSON extends ComponentJSON where
  textAlign : String
  verticalAlign : String
  autoSize : Bool
  wordWrap : Bool
  padding : ℚ
  fontStyle : String
  underline : Bool
  strikethrough : Bool
deriving DecidableEq

/-- `P5Label.toJSON`: the base record plus the label-specific keys. -/
def P5Label.toJSON (lb : P5Label) : LabelJSON where
  toComponentJSON := lb.base.record "P5Label"
  textAlign := lb.textAlign
  verticalAlign := lb.verticalAlign
  autoSize := lb.autoSize
  wordWrap := lb.wordWrap
  padding := lb.padding
  fontStyle := lb.fontStyle
  underline := lb.underline
  strikethrough := lb.strikethrough

/-- Helper: apply a base-class setter through a label instance. -/
def P5Label.mapBase (lb : P5Label) (f : P5Component → P5Component) : P5Label :=
  { lb with base := f lb.base }

/-- The inherited `fromJSON` applied to a label record, in `toJSON` key
order.  The `text` key dispatches to the label's overridden setter (which
auto-sizes when `_autoSize` is currently on); `autoSize` dispatches to the
label setter (which re-derives width and height when turned on); `padding`
has no accessor and only creates the shadow; the remaining label keys hit
plain storing setters. -/
def P5Label.fromJSON (measure : List Char → ℚ) (lb : P5Label)
    (j : LabelJSON) : P5Label :=
  let s1 := lb.mapBase (fun b => b.setName j.name)
  let s2 := (s1.setTextL measure j.text).1
  let s3 := s2.mapBase (fun b => b.setLeft j.left)
  let s4 := s3.mapBase (fun b => b.setTop j.top)
  let s5 := s4.mapBase (fun b => b.setWidth j.width)
  let s6 := s5.mapBase (fun b => b.setHeight j.height)
  let s7 := s6.mapBase (fun b => (b.setEnabled j.enabled).1)
  let s8 := s7.mapBase (fun b => (b.setVisible j.visible).1)
  let s9 := s8.mapBase (fun b => b.setBackColor j.backColor)
  let s10 := s9.mapBase (fun b => b.setForeColor j.foreColor)
  let s11 := s10.mapBase (fun b => b.setFontSize j.fontSize)
  let s12 := s11.mapBase (fun b => b.setFontFamily j.fontFamily)
  let s13 := s12.mapBase (fun b => b.setBorderColor j.borderColor)
  let s14 := s13.mapBase (fun b => b.setBorderWidth j.borderWidth)
  let s15 := s14.mapBase (fun b => { b with tabIndexShadow := some j.tabIndex })
  let s16 := { s15 with textAlign := j.textAlign }
  let s17 := { s16 with verticalAlign := j.verticalAlign }
  let s18 := s17.setAutoSize measure j.autoSize
  let s19 := { s18 with wordWrap := j.wordWrap }
  let s20 := { s19 with paddingShadow := some j.padding }
  let s21 := { s20 with fontStyle := j.fontStyle }
  let s22 := { s21 with underline := j.underline }
  { s22 with strikethrough := j.strikethrough }

/-- The full observable outcome of one `EventEmitter.emit` call: the state
left behind by the listeners, the invocation log (which listener index was
called, with which argument), and the errors that were caught and logged. -/
structure EmitTrace (σ ε α : Type) where
  finalState : σ
  callLog : List (Nat × α)
  errorLog : List ε

/-- The `forEach` body of `EventEmitter.emit` (src/unnamed/part_000 lines
463-473), starting at listener index `i`.  A listener is modelled as a
function from the emit arguments and the shared mutable state to the state
it leaves behind together with `some` thrown error or `none`; the `try`/
`catch` in the source logs the error (`console.error`) and continues with
the next listener, so the result is an `EmitTrace`, never a propagated
exception. -/
def EventEmitter.emitFrom {σ ε α : Type} (args : α) :
    List (α → σ → σ × Option ε) → Nat → σ → EmitTrace σ ε α
  | [], _, s => ⟨s, [], []⟩
  | cb :: rest, i, s =>
    let r := cb args s
    let t := EventEmitter.emitFrom args rest (i + 1) r.1
    ⟨t.finalState, (i, args) :: t.callLog,
      match r.2 with
      | some e => e :: t.errorLog
      | none => t.errorLog⟩

/-- `EventEmitter.emit` over the (registration-ordered) listener list of
one event. -/
def EventEmitter.emit {σ ε α : Type}
    (listeners : List (α → σ → σ × Option ε))
    (args : α) (s : σ) : EmitTrace σ ε α :=
  EventEmitter.emitFrom args listeners 0 s

/-- `EventEmitter.on` appends the new callback at the end of the event's
listener array, so list order is registration order. -/
def EventEmitter.register {σ ε α : Type}
    (listeners : List (α → σ → σ × Option ε))
    (cb : α → σ → σ × Option ε) : List (α → σ → σ × Option ε) :=
  listeners ++ [cb]

/-- The text-input cursor invariant from the spec:
`0 ≤ cursorPosition ≤ length(value)` (the lower bound is intrinsic to the
`Nat` modelling of `_cursorPosition`). -/
def P5TextBox.cursorInv (tb : P5TextBox) : Prop :=
  tb.cursorPosition ≤ tb.base.text.length

instance (tb : P5TextBox) : Decidable tb.cursorInv := by
  unfold P5TextBox.cursorInv
  infer_instance

/-- Insertion via `handleKeyTyped` preserves the cursor invariant. -/
theorem P5TextBox.cursorInv_handleKeyTyped (tb : P5TextBox)
    (h : tb.cursorInv) (c : Char) : (tb.handleKeyTyped c).1.cursorInv := by
  unfold P5TextBox.cursorInv P5TextBox.handleKeyTyped at *
  split
  · exact h
  · split
    · split
      · simp only [List.length_append, List.length_take, List.length_cons,
          List.length_drop]
        omega
      · exact h
    · exact h

/-- `blur()` never changes the component text. -/
theorem P5Component.blurComp_text (c : P5Component) :
    c.blurComp.1.text = c.text := by
  unfold P5Component.blurComp
  split <;> rfl

/-- Every `handleKeyPressed` branch preserves the cursor invariant. -/
theorem P5TextBox.cursorInv_handleKeyPressed (tb : P5TextBox)
    (h : tb.cursorInv) (k : SpecialKey) :
    (tb.handleKeyPressed k).1.cursorInv := by
  have h0 : tb.cursorPosition ≤ tb.base.text.length := h
  unfold P5TextBox.cursorInv
  cases k
  case backspace =>
    simp only [P5TextBox.handleKeyPressed]
    split
    · exact h0
    · split
      · dsimp only
        simp only [List.length_append, List.length_take, List.length_drop]
        omega
      · exact h0
  case deleteKey =>
    simp only [P5TextBox.handleKeyPressed]
    split
    · exact h0
    · split
      · dsimp only
        simp only [List.length_append, List.length_take, List.length_drop]
        omega
      · exact h0
  case leftArrow =>
    simp only [P5TextBox.handleKeyPressed]
    split
    · exact h0
    · split
      · dsimp only
        omega
      · exact h0
  case rightArrow =>
    simp only [P5TextBox.handleKeyPressed]
    split
    · exact h0
    · split
      · dsimp only
        omega
      · exact h0
  case homeKey =>
    simp only [P5TextBox.handleKeyPressed]
    split
    · exact h0
    · exact Nat.zero_le _
  case endKey =>
    simp only [P5TextBox.handleKeyPressed]
    split
    · exact h0
    · exact Nat.le_refl _
  case enter =>
    simp only [P5TextBox.handleKeyPressed]
    split
    · exact h0
    · split
      · exact h0
      · dsimp only
        rw [P5Component.blurComp_text]
        exact h0

/-- `clear()` preserves (re-establishes) the cursor invariant. -/
theorem P5TextBox.cursorInv_clearAll (tb : P5TextBox) :
    tb.clearAll.1.cursorInv := by
  unfold P5TextBox.cursorInv P5TextBox.clearAll
  exact Nat.le_refl _

/-- Claim C2 (counterexample): assignment through the inherited `text`
property setter does not clamp `cursorPosition`.  A text box constructed
with text `"ab"` has `cursorPosition = 2`; assigning `text = ""` leaves
the cursor at 2, beyond the new length 0. -/
theorem setTextProp_breaks_cursorInv :
    ¬ ((P5TextBox.mk0 { text := some ['a', 'b'] } "c").setTextProp
        []).1.cursorInv := by
  decide

/-- Claim C2 (amended): for every text input satisfying the cursor
invariant, every public edit of the value other than raw `text`
assignment — `clear()`, printable insertion, backspace, and forward
delete — leaves `0 ≤ cursorPosition ≤ length(value)` intact; the `text`
property setter is the exception, as it stores the new value without
clamping or recomputing the cursor. -/
theorem edits_preserve_cursorInv (tb : P5TextBox) (h : tb.cursorInv) :
    tb.clearAll.1.cursorInv ∧
    (∀ c : Char, (tb.handleKeyTyped c).1.cursorInv) ∧
    (tb.handleKeyPressed SpecialKey.backspace).1.cursorInv ∧
    (tb.handleKeyPressed SpecialKey.deleteKey).1.cursorInv :=
  ⟨tb.cursorInv_clearAll,
   fun c => tb.cursorInv_handleKeyTyped h c,
   tb.cursorInv_handleKeyPressed h .backspace,
   tb.cursorInv_handleKeyPressed h .deleteKey⟩

/-- Witness for `edits_preserve_cursorInv` at a concrete text box. -/
theorem edits_preserve_cursorInv_witness :
    ((P5TextBox.mk0 { text := some ['x'] } "c").handleKeyPressed
      SpecialKey.backspace).1.cursorInv :=
  (edits_preserve_cursorInv (P5TextBox.mk0 { text := some ['x'] } "c")
    (by decide)).2.2.1

/-- One editing operation of the text-editing algorithm: printable
insertion, backspace, or forward delete. -/
inductive EditOp where
  | ins (c : Char)
  | back
  | del
deriving DecidableEq

/-- Apply one editing operation (state part only). -/
def P5TextBox.applyEdit (tb : P5TextBox) : EditOp → P5TextBox
  | .ins c => (tb.handleKeyTyped c).1
  | .back => (tb.handleKeyPressed SpecialKey.backspace).1
  | .del => (tb.handleKeyPressed SpecialKey.deleteKey).1

/-- Apply a sequence of editing operations, left to right. -/
def P5TextBox.applyEdits (tb : P5TextBox) (ops : List EditOp) : P5TextBox :=
  ops.foldl P5TextBox.applyEdit tb

/-- A single editing operation preserves the cursor invariant. -/
theorem P5TextBox.cursorInv_applyEdit (tb : P5TextBox) (h : tb.cursorInv)
    (op : EditOp) : (tb.applyEdit op).cursorInv := by
  cases op
  case ins c => exact tb.cursorInv_handleKeyTyped h c
  case back => exact tb.cursorInv_handleKeyPressed h .backspace
  case del => exact tb.cursorInv_handleKeyPressed h .deleteKey

/-- Claim C9: starting from any text box satisfying
`0 ≤ cursorPosition ≤ length(value)`, every finite sequence of insert,
backspace, and delete operations maintains the invariant — in particular
it holds after each prefix of the sequence, since the sequence is
universally quantified. -/
theorem edit_sequences_preserve_cursorInv (tb : P5TextBox)
    (h : tb.cursorInv) (ops : List EditOp) :
    (tb.applyEdits ops).cursorInv := by
  induction ops generalizing tb with
  | nil => exact h
  | cons op rest ih =>
    exact ih (tb.applyEdit op) (tb.cursorInv_applyEdit h op)

/-- Witness for `edit_sequences_preserve_cursorInv`: a concrete box and a
concrete insert/backspace/delete sequence. -/
theorem edit_sequences_preserve_cursorInv_witness :
    ((P5TextBox.mk0 { text := some ['h', 'i'] } "c").applyEdits
      [EditOp.ins 'a', EditOp.back, EditOp.del, EditOp.back]).cursorInv :=
  edit_sequences_preserve_cursorInv
    (P5TextBox.mk0 { text := some ['h', 'i'] } "c") (by decide)
    [EditOp.ins 'a', EditOp.back, EditOp.del, EditOp.back]

/-- Claim C1 (divergence exhibit): a component constructed with
`enabled:false` has `enabled = false` yet `state = 'normal'`, because the
constructor assigns `_state = 'normal'` unconditionally; the claimed
invariant `state === 'disabled'` iff `enabled === false` is violated in
the state immediately after construction. -/
theorem mk0_enabled_false_state_normal :
    (P5Component.mk0 { enabled := some false } "c").enabled = false ∧
    (P5Component.mk0 { enabled := some false } "c").state = CState.normal ∧
    CState.normal ≠ CState.disabled :=
  ⟨rfl, rfl, by decide⟩

/-- Claim C10: numeric constructor options read through the JavaScript
`||` fallback are replaced by the built-in default when the explicit value
`0` is passed (`maxLength: 0` gives 255, `borderWidth: 0` gives 1,
`fontSize: 0` gives 14), while `enabled: false` and `visible: false` are
read with an `!== undefined` check and honored. -/
theorem falsy_numeric_options_fall_back :
    (P5TextBox.mk0 { maxLength := some 0 } "c").maxLength = 255 ∧
    (P5Component.mk0 { borderWidth := some 0 } "c").borderWidth = 1 ∧
    (P5Component.mk0 { fontSize := some 0 } "c").fontSize = 14 ∧
    (P5Component.mk0 { enabled := some false } "c").enabled = false ∧
    (P5Component.mk0 { visible := some false } "c").visible = false := by
  refine ⟨by decide, by decide, by decide, rfl, rfl⟩

/-- Claim C3: for a printable character (code ≥ 32), `handleKeyTyped` is a
no-op (same state, no events) when `readOnly` or the value has reached
`maxLength`; otherwise it splices the character in at the cursor, advances
the cursor by exactly one, and emits `change` with the new value followed
by `keyPress`. -/
theorem handleKeyTyped_spec (tb : P5TextBox) (c : Char)
    (hc : 32 ≤ c.toNat) :
    ((tb.readOnly = true ∨ tb.maxLength ≤ (tb.base.text.length : ℚ)) →
      tb.handleKeyTyped c = (tb, [])) ∧
    (tb.readOnly = false → (tb.base.text.length : ℚ) < tb.maxLength →
      tb.handleKeyTyped c =
        ({ tb with
            base := { tb.base with
              text := tb.base.text.take tb.cursorPosition ++ c ::
                      tb.base.text.drop tb.cursorPosition },
            cursorPosition := tb.cursorPosition + 1 },
         [Ev.changeEv (tb.base.text.take tb.cursorPosition ++ c ::
                       tb.base.text.drop tb.cursorPosition),
          Ev.keyPressEv (String.singleton c) c.toNat])) := by
  constructor
  · intro hno
    unfold P5TextBox.handleKeyTyped
    by_cases hro : tb.readOnly = true
    · rw [if_pos hro]
    · rw [if_neg hro, if_pos hc]
      rcases hno with hro2 | hml
      · exact absurd hro2 hro
      · rw [if_neg (not_lt.mpr hml)]
  · intro hro hlt
    unfold P5TextBox.handleKeyTyped
    rw [if_neg (by simp [hro]), if_pos hc, if_pos hlt]

/-- Witness for `handleKeyTyped_spec`: with `maxLength` 3 and value
`"abc"`, typing `'d'` is a no-op. -/
theorem handleKeyTyped_spec_witness :
    (P5TextBox.mk0 { text := some ['a', 'b', 'c'], maxLength := some 3 }
      "c").handleKeyTyped 'd'
    = (P5TextBox.mk0 { text := some ['a', 'b', 'c'], maxLength := some 3 }
      "c", []) :=
  (handleKeyTyped_spec _ 'd' (by decide)).1 (Or.inr (by decide))

/-- Claim C8: backspace is a no-op (same state, no events) when
`readOnly`, when the value is empty, or when the cursor is at 0; otherwise
it removes exactly the character before the cursor, decrements the cursor,
and emits `change` followed by `keyPress`. -/
theorem backspace_spec (tb : P5TextBox) :
    ((tb.readOnly = true ∨ tb.base.text = [] ∨ tb.cursorPosition = 0) →
      tb.handleKeyPressed SpecialKey.backspace = (tb, [])) ∧
    (tb.readOnly = false → 0 < tb.cursorPosition → tb.base.text ≠ [] →
      tb.handleKeyPressed SpecialKey.backspace =
        ({ tb with
            base := { tb.base with
              text := tb.base.text.take (tb.cursorPosition - 1) ++
                      tb.base.text.drop tb.cursorPosition },
            cursorPosition := tb.cursorPosition - 1 },
         [Ev.changeEv (tb.base.text.take (tb.cursorPosition - 1) ++
                       tb.base.text.drop tb.cursorPosition),
          Ev.keyPressEv "Backspace" 8])) := by
  constructor
  · intro hno
    simp only [P5TextBox.handleKeyPressed]
    by_cases hro : tb.readOnly = true
    · rw [if_pos hro]
    · rw [if_neg hro, if_neg]
      rcases hno with h1 | h2 | h3
      · exact absurd h1 hro
      · simp [h2]
      · simp [h3]
  · intro hro hpos hne
    simp only [P5TextBox.handleKeyPressed]
    rw [if_neg (by simp [hro]),
      if_pos ⟨List.length_pos.mpr hne, hpos⟩]

/-- Witness for `backspace_spec`: after `Home` on value `"x"` the cursor
is 0 and backspace is a no-op, leaving value `"x"` and cursor 0. -/
theorem backspace_spec_witness :
    ((P5TextBox.mk0 { text := some ['x'] } "c").handleKeyPressed
        SpecialKey.homeKey).1.handleKeyPressed SpecialKey.backspace
      = (((P5TextBox.mk0 { text := some ['x'] } "c").handleKeyPressed
          SpecialKey.homeKey).1, []) ∧
    ((P5TextBox.mk0 { text := some ['x'] } "c").handleKeyPressed
        SpecialKey.homeKey).1.base.text = ['x'] ∧
    ((P5TextBox.mk0 { text := some ['x'] } "c").handleKeyPressed
        SpecialKey.homeKey).1.cursorPosition = 0 :=
  ⟨(backspace_spec _).1 (Or.inr (Or.inr (by decide))), by decide, by decide⟩

/-- No event in `l` is a `click`. -/
def clickFree (l : List Ev) : Prop := ∀ e ∈ l, e.isClick = false

/-- The click-synthesis contract of the mouse state machine, for an
enabled component `c1` receiving pointer-down, an enabled component `c2`
with the pointer outside receiving pointer-up, and an enabled component
`c` with the pointer inside that runs the full drag-out sequence
pointer-down → pointer-leave → pointer-up. -/
def ClickContract (c1 c2 c : P5Component)
    (xa ya xb yb x1 y1 x3 y3 : ℚ) : Prop :=
  clickFree (c1.handleMousePressed xa ya).2 ∧
  clickFree (c2.handleMouseReleased xb yb).2 ∧
  Ev.mouseUp xb yb ∈ (c2.handleMouseReleased xb yb).2 ∧
  clickFree (c.handleMousePressed x1 y1).2 ∧
  clickFree (c.handleMousePressed x1 y1).1.handleMouseOut.2 ∧
  (c.handleMousePressed x1 y1).1.handleMouseOut.1.state = CState.active ∧
  (c.handleMousePressed x1 y1).1.handleMouseOut.1.mouseInside = false ∧
  clickFree ((c.handleMousePressed x1 y1).1.handleMouseOut.1.handleMouseReleased
    x3 y3).2 ∧
  Ev.mouseUp x3 y3 ∈
    ((c.handleMousePressed x1 y1).1.handleMouseOut.1.handleMouseReleased
      x3 y3).2 ∧
  ((c.handleMousePressed x1 y1).1.handleMouseOut.1.handleMouseReleased
    x3 y3).1.state = CState.normal

/-- Claim C4: for enabled components, pointer-down never emits `click`;
pointer-up with the pointer outside never emits `click` but still emits
`mouseUp`; and in the sequence pointer-down inside → pointer-leave →
pointer-up outside, no `click` is emitted anywhere, after the leave the
state is still `active` with `mouseInside = false`, a `mouseUp` is emitted
on release, and the final state is `normal`. -/
theorem click_only_on_release_inside (c1 c2 c : P5Component)
    (xa ya xb yb x1 y1 x3 y3 : ℚ)
    (h1 : c1.enabled = true)
    (h2e : c2.enabled = true) (h2o : c2.mouseInside = false)
    (he : c.enabled = true) (hi : c.mouseInside = true) :
    ClickContract c1 c2 c xa ya xb yb x1 y1 x3 y3 := by
  unfold ClickContract clickFree
  refine ⟨?_, ?_, ?_, ?_, ?_, ?_, ?_, ?_, ?_, ?_⟩ <;>
    simp [P5Component.handleMousePressed, P5Component.handleMouseReleased,
      P5Component.handleMouseOut, h1, h2e, h2o, he, hi, Ev.isClick]

/-- Witness for `click_only_on_release_inside` on freshly constructed
components (with the pointer moved inside by `_handleMouseOver` for the
drag-out sequence). -/
theorem click_only_on_release_inside_witness :
    ClickContract (P5Component.mk0 {} "c") (P5Component.mk0 {} "c")
      (P5Component.mk0 {} "c").handleMouseOver.1 0 0 1 1 2 2 3 3 :=
  click_only_on_release_inside (P5Component.mk0 {} "c")
    (P5Component.mk0 {} "c") (P5Component.mk0 {} "c").handleMouseOver.1
    0 0 1 1 2 2 3 3 rfl rfl rfl rfl rfl

/-- The invocation log of `emitFrom` starting at index `i`: every listener
is called once, in order, with the same arguments, regardless of which
listeners throw. -/
theorem EventEmitter.emitFrom_callLog {σ ε α : Type} (args : α)
    (listeners : List (α → σ → σ × Option ε)) (i : Nat) (s : σ) :
    (EventEmitter.emitFrom args listeners i s).callLog
      = (List.range' i listeners.length).map (fun j => (j, args)) := by
  induction listeners generalizing i s with
  | nil => rfl
  | cons cb rest ih =>
    simp only [EventEmitter.emitFrom, List.length_cons, List.range'_succ,
      List.map_cons, ih]

/-- Claim C6: `emit` calls every registered listener exactly once,
synchronously, in registration order (indices `0, 1, …, n-1`), each with
the same argument tuple — even when arbitrary earlier listeners throw,
since the per-listener `try`/`catch` records the error in the log instead
of letting it stop delivery; `emit` itself always returns an `EmitTrace`
(no exception escapes to its caller). -/
theorem emit_invokes_all_listeners_in_order {σ ε α : Type}
    (listeners : List (α → σ → σ × Option ε)) (args : α) (s : σ) :
    (EventEmitter.emit listeners args s).callLog
      = (List.range listeners.length).map (fun j => (j, args)) := by
  rw [EventEmitter.emit, EventEmitter.emitFrom_callLog, List.range_eq_range']

/-- The base pointer-down handler never changes `enabled`. -/
theorem P5Component.handleMousePressed_enabled (c : P5Component)
    (mx my : ℚ) : (c.handleMousePressed mx my).1.enabled = c.enabled := by
  unfold P5Component.handleMousePressed
  split <;> rfl

/-- The base pointer-down handler never changes the text. -/
theorem P5Component.handleMousePressed_text (c : P5Component)
    (mx my : ℚ) : (c.handleMousePressed mx my).1.text = c.text := by
  unfold P5Component.handleMousePressed
  split <;> rfl

/-- `focus()` never changes the text. -/
theorem P5Component.focusComp_text (c : P5Component) :
    c.focusComp.1.text = c.text := by
  unfold P5Component.focusComp
  split <;> rfl

/-- The clamped source loop agrees with the spec-worded first-index
description: `Math.min` of the loop's `position` with the text length is
exactly "first index whose accumulated width plus half the next glyph
exceeds the offset, else the length" — for every glyph measurement,
including whatever `textWidth('')` returns for the final iteration. -/
theorem clickLoop_min_eq_spec (w : Char → ℚ) (we : ℚ)
    (chars : List Char) (offset acc : ℚ) :
    min (clickLoopRel w we chars offset acc) chars.length
      = specCursorIndex w chars offset acc := by
  induction chars generalizing acc with
  | nil => simp [clickLoopRel, specCursorIndex]
  | cons c rest ih =>
    simp only [clickLoopRel, specCursorIndex, List.length_cons]
    by_cases hcond : acc + w c / 2 > offset
    · rw [if_pos hcond, if_pos hcond]
      simp
    · rw [if_neg hcond, if_neg hcond, ← ih (acc + w c)]
      omega

/-- Claim C7: a pointer-down on an enabled, non-read-only, left-aligned
text box places the cursor at the first index whose accumulated glyph
width plus half the next glyph's width exceeds the click offset relative
to the left padding, or at the end of the value when no index qualifies
(glyph measurement is the external parameter `w`, and `we` is the
measured width of the empty string read by the loop's final iteration). -/
theorem mousePressed_sets_cursor_spec (w : Char → ℚ) (we : ℚ)
    (tb : P5TextBox) (mx my : ℚ)
    (hen : tb.base.enabled = true) (hro : tb.readOnly = false)
    (hal : tb.textAlign = "left") :
    (P5TextBox.handleMousePressedTB w we tb mx my).1.cursorPosition
      = specCursorIndex w tb.base.text (mx - tb.padding) 0 := by
  unfold P5TextBox.handleMousePressedTB
  simp only [P5Component.handleMousePressed_enabled, hen, hro, hal,
    Bool.not_false, ne_eq, not_false_eq_true, and_self, if_true,
    P5Component.focusComp_text, P5Component.handleMousePressed_text]
  rw [if_pos]
  · exact clickLoop_min_eq_spec w we tb.base.text (mx - tb.padding) 0
  · simp

/-- Witness for `mousePressed_sets_cursor_spec` at a concrete text box,
measurement, and click position. -/
theorem mousePressed_sets_cursor_spec_witness :
    (P5TextBox.handleMousePressedTB (fun _ => 10) 0
        (P5TextBox.mk0 { text := some ['a', 'b'] } "c") 16 0).1.cursorPosition
      = specCursorIndex (fun _ => 10)
          (P5TextBox.mk0 { text := some ['a', 'b'] } "c").base.text
          (16 - (P5TextBox.mk0 { text := some ['a', 'b'] } "c").padding) 0 :=
  mousePressed_sets_cursor_spec (fun _ => 10) 0
    (P5TextBox.mk0 { text := some ['a', 'b'] } "c") 16 0 rfl rfl rfl

/-- Forget the `width`/`height` fields of a serialized label record. -/
def LabelJSON.eraseSize (j : LabelJSON) : LabelJSON :=
  { j with toComponentJSON :=
      { j.toComponentJSON with width := 0, height := 0 } }

/-- Claim C5 (counterexample): the round-trip law fails for a label.  A
label constructed with `autoSize:true` whose width is then set to 500
serializes `width: 500`, but `fromJSON` re-applies the `autoSize` setter
after the `width` setter, and that setter re-derives `_width` from the
measured text (40 here), so the width after
`label.fromJSON(label.toJSON())` is 40, not 500. -/
theorem label_roundtrip_counterexample :
    ((P5Label.setWidthL (P5Label.mk0 { autoSize := some true } "c")
        500).fromJSON (fun _ => 40)
        (P5Label.setWidthL (P5Label.mk0 { autoSize := some true } "c")
          500).toJSON).base.width = 40 ∧
    (P5Label.setWidthL (P5Label.mk0 { autoSize := some true } "c")
      500).base.width = 500 ∧
    (40 : ℚ) ≠ 500 := by
  refine ⟨?_, ?_, by norm_num⟩
  · simp [P5Label.fromJSON, P5Label.setTextL, P5Label.setAutoSize,
      P5Label.mapBase, P5Label.toJSON, P5Component.record,
      P5Label.setWidthL, P5Label.mk0, P5Label.adjustSize,
      P5Component.mk0, LBOptions.merged, jsOrNum, jsOrStr, jsOrList,
      jsOrBool, P5Component.setName, P5Component.setLeft,
      P5Component.setTop, P5Component.setWidth, P5Component.setHeight,
      P5Component.setEnabled, P5Component.setVisible,
      P5Component.setBackColor, P5Component.setForeColor,
      P5Component.setFontSize, P5Component.setFontFamily,
      P5Component.setBorderColor, P5Component.setBorderWidth]
  · simp [P5Label.setWidthL, P5Component.setWidth]

/-- Claim C5 (amended): `widget.fromJSON(widget.toJSON())` leaves every
declared (serialized) property unchanged for the base component, the
button, and the text box, and for a label whose `autoSize` is off; for a
label with `autoSize` on, every declared property except `width` and
`height` is preserved — those two are recomputed from the measured text
size by the `autoSize` setter that `fromJSON` re-runs. -/
theorem widget_roundtrip_amended :
    (∀ c : P5Component, (c.fromJSON c.toJSON).toJSON = c.toJSON) ∧
    (∀ b : P5Button, (b.fromJSON b.toJSON).toJSON = b.toJSON) ∧
    (∀ tb : P5TextBox, (tb.fromJSON tb.toJSON).toJSON = tb.toJSON) ∧
    (∀ (m : List Char → ℚ) (lb : P5Label), lb.autoSize = false →
      (lb.fromJSON m lb.toJSON).toJSON = lb.toJSON) ∧
    (∀ (m : List Char → ℚ) (lb : P5Label),
      ((lb.fromJSON m lb.toJSON).toJSON).eraseSize =
        lb.toJSON.eraseSize) := by
  refine ⟨?_, ?_, ?_, ?_, ?_⟩
  · intro c
    simp [P5Component.fromJSON, P5Component.toJSON, P5Component.record,
      P5Component.setName, P5Component.setText, P5Component.setLeft,
      P5Component.setTop, P5Component.setWidth, P5Component.setHeight,
      P5Component.setEnabled, P5Component.setVisible,
      P5Component.setBackColor, P5Component.setForeColor,
      P5Component.setFontSize, P5Component.setFontFamily,
      P5Component.setBorderColor, P5Component.setBorderWidth]
  · intro b
    simp [P5Button.fromJSON, P5Button.toJSON,
      P5Component.fromJSON, P5Component.record,
      P5Component.setName, P5Component.setText, P5Component.setLeft,
      P5Component.setTop, P5Component.setWidth, P5Component.setHeight,
      P5Component.setEnabled, P5Component.setVisible,
      P5Component.setBackColor, P5Component.setForeColor,
      P5Component.setFontSize, P5Component.setFontFamily,
      P5Component.setBorderColor, P5Component.setBorderWidth]
  · intro tb
    simp [P5TextBox.fromJSON, P5TextBox.toJSON,
      P5Component.fromJSON, P5Component.record,
      P5Component.setName, P5Component.setText, P5Component.setLeft,
      P5Component.setTop, P5Component.setWidth, P5Component.setHeight,
      P5Component.setEnabled, P5Component.setVisible,
      P5Component.setBackColor, P5Component.setForeColor,
      P5Component.setFontSize, P5Component.setFontFamily,
      P5Component.setBorderColor, P5Component.setBorderWidth]
  · intro m lb h
    simp [P5Label.fromJSON, P5Label.setTextL, P5Label.setAutoSize,
      P5Label.mapBase, P5Label.toJSON, P5Component.record, h,
      P5Component.setName, P5Component.setLeft,
      P5Component.setTop, P5Component.setWidth, P5Component.setHeight,
      P5Component.setEnabled, P5Component.setVisible,
      P5Component.setBackColor, P5Component.setForeColor,
      P5Component.setFontSize, P5Component.setFontFamily,
      P5Component.setBorderColor, P5Component.setBorderWidth]
  · intro m lb
    by_cases h : lb.autoSize = true <;>
    simp [P5Label.fromJSON, P5Label.setTextL, P5Label.setAutoSize,
      P5Label.mapBase, P5Label.toJSON, P5Component.record, h,
      P5Label.adjustSize, LabelJSON.eraseSize,
      P5Component.setName, P5Component.setLeft,
      P5Component.setTop, P5Component.setWidth, P5Component.setHeight,
      P5Component.setEnabled, P5Component.setVisible,
      P5Component.setBackColor, P5Component.setForeColor,
      P5Component.setFontSize, P5Component.setFontFamily,
      P5Component.setBorderColor, P5Component.setBorderWidth]

/-- Witness for `widget_roundtrip_amended` on a concrete label (default
construction, `autoSize` off). -/
theorem widget_roundtrip_amended_witness :
    ((P5Label.mk0 {} "c").fromJSON (fun _ => 40)
        (P5Label.mk0 {} "c").toJSON).toJSON = (P5Label.mk0 {} "c").toJSON :=
  widget_roundtrip_amended.2.2.2.1 (fun _ => 40) (P5Label.mk0 {} "c") rfl
